import Mathlib

/-!
Verification of the gesture-controlled maze game (`maze_game.py`).

The game logic is embedded shallowly: coordinates are integers (pixel
positions), and every comparison of the form `math.sqrt(dx**2 + dy**2) < r`
from the source is encoded as the equivalent integer comparison
`0 ≤ r ∧ dx^2 + dy^2 < r^2` (the helper `distLt`); the equivalence with the
real square-root comparison is proved as `distLt_iff_sqrt`.  The mutable
globals of the script (`circle`, `game_over`, `game_won`, the wall list, the
finish circle) form the `GameState` record; the loop-carried fingertip
variables `x1, y1, x2, y2` (assigned only when a hand with at least 13
landmarks is seen) form the `Tips` value, `none` meaning the variables are
still unassigned, in which case reading them raises a `NameError`.  One
iteration of the interaction-plus-game-logic part of the main loop is the
function `frame`; pressing the restart key is `reset_game`.
-/

namespace MazeGame

/-- Encoding of the comparison `math.sqrt((p.1-q.1)**2 + (p.2-q.2)**2) < r`
from the source, kept inside the integers: for `0 ≤ r` the square-root
comparison is equivalent to comparing squared distances, and for `r < 0` it
is always false. -/
def distLt (p q : Int × Int) (r : Int) : Bool :=
  decide (0 ≤ r) && decide ((p.1 - q.1) ^ 2 + (p.2 - q.2) ^ 2 < r ^ 2)

/-- A maze wall (`DragRect` in the source): a center and a `(width, height)`
size. -/
structure DragRect where
  posCenter : Int × Int
  size : Int × Int
  deriving DecidableEq

/-- `closest_x = max(cx - w // 2, min(circle_center[0], cx + w // 2))` from
`DragRect.check_collision`; Python `//` is floor division, hence `Int.fdiv`. -/
def closest_x (rect : DragRect) (circle_center : Int × Int) : Int :=
  max (rect.posCenter.1 - rect.size.1.fdiv 2)
    (min circle_center.1 (rect.posCenter.1 + rect.size.1.fdiv 2))

/-- `closest_y = max(cy - h // 2, min(circle_center[1], cy + h // 2))` from
`DragRect.check_collision`. -/
def closest_y (rect : DragRect) (circle_center : Int × Int) : Int :=
  max (rect.posCenter.2 - rect.size.2.fdiv 2)
    (min circle_center.2 (rect.posCenter.2 + rect.size.2.fdiv 2))

/-- `DragRect.check_collision`: clamp the circle center to the rectangle and
compare the distance from the clamped point to the circle center with the
radius (strictly). -/
def check_collision (rect : DragRect) (circle_center : Int × Int) (radius : Int) : Bool :=
  distLt (closest_x rect circle_center, closest_y rect circle_center) circle_center radius

/-- The player circle (`DragCircle` in the source), without its immutable
`start_pos`, which lives in `GameState`. -/
structure Player where
  pos : Int × Int
  radius : Int
  grabbed : Bool
  deriving DecidableEq

/-- Lines 138-149 of the source, for one frame in which the pinch distance
and cursor have been computed: on a pinch, grab if the cursor is inside the
circle (keeping an existing grab otherwise); on no pinch, release; finally
follow the cursor if grabbed. -/
def applyGesture (p : Player) (pinching : Bool) (cursor : Int × Int) : Player :=
  if pinching then
    let g := if distLt cursor p.pos p.radius then true else p.grabbed
    { p with grabbed := g, pos := if g then cursor else p.pos }
  else
    { p with grabbed := false }

/-- The mutable globals of the script: the player circle, its start position,
the two game-state flags, the wall list and the finish circle. -/
structure GameState where
  player : Player
  startPos : Int × Int
  game_over : Bool
  game_won : Bool
  rects : List DragRect
  finish_pos : Int × Int
  finish_radius : Int
  deriving DecidableEq

/-- The session status derived from the two boolean flags, with the priority
used by the display code (`if game_over: ... elif game_won: ...`). -/
inductive SessionStatus where
  | Playing
  | Lost
  | Won
  deriving DecidableEq

/-- Status of a game state: `Lost` when `game_over` is set, else `Won` when
`game_won` is set, else `Playing`. -/
def status (s : GameState) : SessionStatus :=
  if s.game_over then SessionStatus.Lost
  else if s.game_won then SessionStatus.Won
  else SessionStatus.Playing

/-- The collision loop condition: some wall in `rects` collides with the
player circle (lines 170-172 set `game_over` when any wall collides). -/
def collAny (s : GameState) : Bool :=
  s.rects.any fun rect => check_collision rect s.player.pos s.player.radius

/-- The finish-line condition of lines 175-177: the distance from the player
center to the finish center is less than the sum of the radii. -/
def goalHit (s : GameState) : Bool :=
  distLt s.player.pos s.finish_pos (s.player.radius + s.finish_radius)

/-- Lines 170-177 of the source: the wall-collision loop (which can only set
`game_over`) followed by the finish check (which can only set `game_won`).
Both run unconditionally every frame. -/
def frameChecks (s : GameState) : GameState :=
  { s with
    game_over := s.game_over || collAny s
    game_won := s.game_won || goalHit s }

/-- The loop-carried fingertip variables `(x1, y1), (x2, y2)`; `none` while
they have never been assigned. -/
abbrev Tips := Option ((Int × Int) × (Int × Int))

/-- Line 131-133: the fingertip variables are reassigned from landmarks 8 and
12 only when the landmark list has at least 13 entries; otherwise they keep
their previous values. -/
def newTips (v : Tips) (lmList : List (Int × Int)) : Tips :=
  if 13 ≤ lmList.length then some (lmList.getD 8 (0, 0), lmList.getD 12 (0, 0)) else v

/-- Lines 136-149 of the source, the body guarded by `if hands and not
game_over and not game_won`.  The pinch distance at line 136 is computed
outside the `len(lmList) >= 13` guard, so it uses the possibly stale
fingertip variables, raising a `NameError` when they have never been
assigned; `cursor = lmList[8]` at line 139 raises an `IndexError` when the
current landmark list is shorter than 9. -/
def gestureBlock (s : GameState) (tips : Tips) (lmList : List (Int × Int)) :
    Except String (GameState × Tips) :=
  match tips with
  | none => Except.error "NameError"
  | some (p1, p2) =>
    if distLt p2 p1 30 then
      match lmList.get? 8 with
      | none => Except.error "IndexError"
      | some cursor => Except.ok ({ s with player := applyGesture s.player true cursor }, tips)
    else
      Except.ok ({ s with player := { s.player with grabbed := false } }, tips)

/-- Lines 127-149: the whole interaction block, entered only when a hand is
detected and neither flag is set. -/
def frameGesture (s : GameState) (v : Tips) (hand : Option (List (Int × Int))) :
    Except String (GameState × Tips) :=
  match hand with
  | none => Except.ok (s, v)
  | some lmList =>
    if s.game_over || s.game_won then Except.ok (s, v)
    else gestureBlock s (newTips v lmList) lmList

/-- One iteration of the game-logic part of the main loop: the interaction
block followed by the unconditional collision and finish checks. -/
def frame (s : GameState) (v : Tips) (hand : Option (List (Int × Int))) :
    Except String (GameState × Tips) :=
  match frameGesture s v hand with
  | Except.error e => Except.error e
  | Except.ok (sm, vm) => Except.ok (frameChecks sm, vm)

/-- `reset_game()` from the source: clear both flags and move the circle back
to its start position.  The `grabbed` flag is not touched. -/
def reset_game (s : GameState) : GameState :=
  { s with
    game_over := false
    game_won := false
    player := { s.player with pos := s.startPos } }

/-- The fixed wall centers (`rect_positions` in the source). -/
def rect_positions : List (Int × Int) :=
  [(200, 200), (400, 200), (600, 200), (800, 200), (1000, 200),
   (200, 400), (400, 400), (800, 400), (1000, 400),
   (200, 600), (600, 600), (1000, 600)]

/-- `rectList = [DragRect(pos) for pos in rect_positions]`, each wall with the
default size `[100, 100]`. -/
def rectList : List DragRect :=
  rect_positions.map fun p => { posCenter := p, size := (100, 100) }

/-- The state of the globals right before the main loop starts: player at
`(640, 360)` radius 30 not grabbed, both flags clear, the fixed wall list and
the finish circle at `(1100, 100)` radius 40. -/
def initState : GameState :=
  { player := { pos := (640, 360), radius := 30, grabbed := false }
    startPos := (640, 360)
    game_over := false
    game_won := false
    rects := rectList
    finish_pos := (1100, 100)
    finish_radius := 40 }

/-- States of the program: the initial state, any state produced by a
successfully completed loop iteration, and any state produced by pressing the
restart key. -/
inductive Reachable : GameState → Tips → Prop where
  | start : Reachable initState none
  | step {s v s2 v2} (hand : Option (List (Int × Int))) :
      Reachable s v → frame s v hand = Except.ok (s2, v2) → Reachable s2 v2
  | reset {s v} : Reachable s v → Reachable (reset_game s) v

/-- Invariant maintained by every reachable state: the maze layout, player
radius, start position and finish data are the fixed constants, and the two
flags already absorb the collision and finish checks at the current player
position (those checks ran at the end of the iteration that produced the
state). -/
def Inv (s : GameState) : Prop :=
  s.rects = rectList ∧ s.player.radius = 30 ∧ s.startPos = (640, 360) ∧
  s.finish_pos = (1100, 100) ∧ s.finish_radius = 40 ∧
  (collAny s = true → s.game_over = true) ∧ (goalHit s = true → s.game_won = true)

/-- A 13-landmark list with every landmark at the player start position:
pinching with the cursor over the circle. -/
def lm13 : List (Int × Int) := List.replicate 13 (640, 360)

/-- A 13-landmark list with every landmark at `p`: pinching with the cursor
at `p`. -/
def lmDrag (p : Int × Int) : List (Int × Int) := List.replicate 13 p

/-- A 12-landmark list (landmark 12 missing). -/
def lm12 : List (Int × Int) := List.replicate 12 (640, 360)

/-- A 12-landmark list located at `(900, 500)` (landmark 12 missing). -/
def lm12b : List (Int × Int) := List.replicate 12 (900, 500)

/-- Fingertip variables after a frame that saw `lm13`. -/
def t1 : Tips := some ((640, 360), (640, 360))

/-- The state after grabbing the circle at its start position. -/
def s1 : GameState :=
  { initState with player := { pos := (640, 360), radius := 30, grabbed := true } }

/-- The state after dragging the grabbed circle to `(1060, 140)`, where it
overlaps both the wall centered at `(1000, 200)` and the finish circle: both
flags are set in the same frame. -/
def s2 : GameState :=
  { initState with
    player := { pos := (1060, 140), radius := 30, grabbed := true }
    game_over := true
    game_won := true }

/-- The state after dragging the grabbed circle on a 12-landmark frame with
stale pinching fingertips: the player has moved to `(900, 500)`. -/
def s3 : GameState :=
  { initState with player := { pos := (900, 500), radius := 30, grabbed := true } }

/-- A lost state: the circle was dragged into the wall centered at
`(200, 200)`. -/
def sTerm : GameState :=
  { initState with
    player := { pos := (200, 200), radius := 30, grabbed := true }
    game_over := true }

/-- Fingertip variables after the frame that produced `sTerm`. -/
def tTerm : Tips := some ((200, 200), (200, 200))

/-- A still-playing state whose player position both collides with a wall and
lies within the finish distance. -/
def sBoth : GameState :=
  { initState with player := { pos := (1060, 140), radius := 30, grabbed := true } }

/-- A still-playing state whose player position collides with the wall
centered at `(200, 200)`. -/
def sB : GameState :=
  { initState with player := { pos := (200, 200), radius := 30, grabbed := false } }

/-- A sample wall, used to instantiate the collision theorem. -/
def rect0 : DragRect := { posCenter := (200, 200), size := (100, 100) }


theorem distLt_iff_sqrt (p q : Int × Int) (r : Int) :
    distLt p q r = true ↔
      Real.sqrt (((p.1 - q.1 : Int) : ℝ) ^ 2 + ((p.2 - q.2 : Int) : ℝ) ^ 2) < (r : ℝ) := by
  have key : distLt p q r = true ↔
      (0 ≤ r ∧ (p.1 - q.1) ^ 2 + (p.2 - q.2) ^ 2 < r ^ 2) := by
    unfold distLt
    simp [Bool.and_eq_true, decide_eq_true_iff]
  rw [key]
  rcases lt_trichotomy r 0 with hr | hr | hr
  · constructor
    · intro h
      omega
    · intro h
      exfalso
      have hr2 : (r : ℝ) < 0 := by exact_mod_cast hr
      have := lt_of_le_of_lt (Real.sqrt_nonneg _) h
      linarith
  · subst hr
    constructor
    · intro h
      exfalso
      nlinarith [sq_nonneg (p.1 - q.1), sq_nonneg (p.2 - q.2), h.2]
    · intro h
      exfalso
      have := lt_of_le_of_lt (Real.sqrt_nonneg _) h
      norm_num at this
  · have hrr : (0 : ℝ) < (r : ℝ) := by exact_mod_cast hr
    rw [Real.sqrt_lt' hrr]
    constructor
    · intro h
      have h2 := h.2
      push_cast
      exact_mod_cast h2
    · intro h
      refine ⟨le_of_lt hr, ?_⟩
      exact_mod_cast h

theorem applyGesture_radius (p : Player) (b : Bool) (c : Int × Int) :
    (applyGesture p b c).radius = p.radius := by
  cases b
  · rfl
  · unfold applyGesture
    by_cases hg : distLt c p.pos p.radius = true
    · simp [hg]
    · simp [hg]

theorem frame_eq_ok {s : GameState} {v : Tips} {hand : Option (List (Int × Int))}
    {sm : GameState} {vm : Tips} (h : frameGesture s v hand = Except.ok (sm, vm)) :
    frame s v hand = Except.ok (frameChecks sm, vm) := by
  unfold frame
  rw [h]

theorem frame_eq_error {s : GameState} {v : Tips} {hand : Option (List (Int × Int))}
    {e : String} (h : frameGesture s v hand = Except.error e) :
    frame s v hand = Except.error e := by
  unfold frame
  rw [h]

theorem frame_ok_decomp {s : GameState} {v : Tips} {hand : Option (List (Int × Int))}
    {s2 : GameState} {v2 : Tips} (h : frame s v hand = Except.ok (s2, v2)) :
    ∃ sm, frameGesture s v hand = Except.ok (sm, v2) ∧ s2 = frameChecks sm := by
  rcases hfg : frameGesture s v hand with e | ⟨sm, vm⟩
  · rw [frame_eq_error hfg] at h
    exact Except.noConfusion h
  · rw [frame_eq_ok hfg] at h
    injection h with h
    injection h with h1 h2
    exact ⟨sm, by rw [h2], h1.symm⟩

theorem gestureBlock_pres {s : GameState} {tips : Tips} {lmList : List (Int × Int)}
    {s2 : GameState} {v2 : Tips} (h : gestureBlock s tips lmList = Except.ok (s2, v2)) :
    s2.rects = s.rects ∧ s2.startPos = s.startPos ∧ s2.finish_pos = s.finish_pos ∧
      s2.finish_radius = s.finish_radius ∧ s2.player.radius = s.player.radius ∧
      s2.game_over = s.game_over ∧ s2.game_won = s.game_won := by
  cases tips with
  | none => exact Except.noConfusion h
  | some pq =>
    obtain ⟨pp1, pp2⟩ := pq
    simp only [gestureBlock] at h
    by_cases hp : distLt pp2 pp1 30 = true
    · rw [if_pos hp] at h
      cases hg : lmList.get? 8 with
      | none =>
        rw [hg] at h
        exact Except.noConfusion h
      | some cursor =>
        rw [hg] at h
        injection h with h
        injection h with h1 h2
        subst h1
        exact ⟨rfl, rfl, rfl, rfl, applyGesture_radius _ _ _, rfl, rfl⟩
    · rw [if_neg hp] at h
      injection h with h
      injection h with h1 h2
      subst h1
      exact ⟨rfl, rfl, rfl, rfl, rfl, rfl, rfl⟩

theorem gesture_pres {s : GameState} {v : Tips} {hand : Option (List (Int × Int))}
    {s2 : GameState} {v2 : Tips} (h : frameGesture s v hand = Except.ok (s2, v2)) :
    s2.rects = s.rects ∧ s2.startPos = s.startPos ∧ s2.finish_pos = s.finish_pos ∧
      s2.finish_radius = s.finish_radius ∧ s2.player.radius = s.player.radius ∧
      s2.game_over = s.game_over ∧ s2.game_won = s.game_won := by
  cases hand with
  | none =>
    simp only [frameGesture] at h
    injection h with h
    injection h with h1 h2
    subst h1
    exact ⟨rfl, rfl, rfl, rfl, rfl, rfl, rfl⟩
  | some lmList =>
    simp only [frameGesture] at h
    by_cases ht : (s.game_over || s.game_won) = true
    · rw [if_pos ht] at h
      injection h with h
      injection h with h1 h2
      subst h1
      exact ⟨rfl, rfl, rfl, rfl, rfl, rfl, rfl⟩
    · rw [if_neg ht] at h
      exact gestureBlock_pres h

theorem perm_any {α : Type} (f : α → Bool) {l1 l2 : List α} (h : l1.Perm l2) :
    l1.any f = l2.any f := by
  induction h with
  | nil => rfl
  | cons x h ih => simp [List.any_cons, ih]
  | swap x y l =>
    simp only [List.any_cons]
    cases f x <;> cases f y <;> simp
  | trans h1 h2 ih1 ih2 => exact ih1.trans ih2

theorem inv_initState : Inv initState := by
  refine ⟨rfl, rfl, rfl, rfl, rfl, ?_, ?_⟩
  · intro h
    exact absurd h (by decide)
  · intro h
    exact absurd h (by decide)

theorem frameChecks_inv {s : GameState} (h1 : s.rects = rectList) (h2 : s.player.radius = 30)
    (h3 : s.startPos = (640, 360)) (h4 : s.finish_pos = (1100, 100))
    (h5 : s.finish_radius = 40) : Inv (frameChecks s) := by
  refine ⟨h1, h2, h3, h4, h5, ?_, ?_⟩
  · intro hc
    have hc2 : collAny s = true := hc
    show (s.game_over || collAny s) = true
    rw [hc2]
    exact Bool.or_true _
  · intro hg
    have hg2 : goalHit s = true := hg
    show (s.game_won || goalHit s) = true
    rw [hg2]
    exact Bool.or_true _

theorem inv_reset {s : GameState} (hi : Inv s) : Inv (reset_game s) := by
  obtain ⟨h1, h2, h3, h4, h5, -, -⟩ := hi
  refine ⟨h1, h2, h3, h4, h5, ?_, ?_⟩
  · intro hc
    exfalso
    have he : collAny (reset_game s) = false := by
      show (s.rects.any fun rect => check_collision rect s.startPos s.player.radius) = false
      rw [h1, h2, h3]
      decide
    rw [he] at hc
    exact Bool.false_ne_true hc
  · intro hg
    exfalso
    have he : goalHit (reset_game s) = false := by
      show distLt s.startPos s.finish_pos (s.player.radius + s.finish_radius) = false
      rw [h2, h3, h4, h5]
      decide
    rw [he] at hg
    exact Bool.false_ne_true hg

theorem reach_inv {s : GameState} {v : Tips} (h : Reachable s v) : Inv s := by
  induction h with
  | start => exact inv_initState
  | step hand hr hfr ih =>
    obtain ⟨sm, hfg, rfl⟩ := frame_ok_decomp hfr
    obtain ⟨e1, e2, e3, e4, e5, -, -⟩ := gesture_pres hfg
    obtain ⟨i1, i2, i3, i4, i5, -, -⟩ := ih
    exact frameChecks_inv (e1.trans i1) (e5.trans i2) (e2.trans i3) (e3.trans i4) (e4.trans i5)
  | reset hr ih => exact inv_reset ih

/-- Claim C1 (code_bug evidence): grabbing the circle at its start position is
reachable in one frame, and `reset_game` on that state restores the start
position and the Playing status but leaves the grabbed flag set to true,
while the spec requires isGrabbed to be false after a reset. -/
theorem reset_game_keeps_grabbed :
    frame initState none (some lm13) = Except.ok (s1, t1) ∧
      s1.player.grabbed = true ∧
      (reset_game s1).player.grabbed = true ∧
      (reset_game s1).player.pos = s1.startPos ∧
      status (reset_game s1) = SessionStatus.Playing :=
  ⟨rfl, rfl, rfl, rfl, rfl⟩

/-- Claim C2 (code_bug evidence): on the first frame whose detected hand has
only 12 landmarks the pinch-distance line reads never-assigned fingertip
variables and a NameError escapes; and with stale pinching fingertips from an
earlier frame, a 12-landmark frame moves the grabbed player to the fresh
`lmList[8]`, so the player is not left unchanged either. -/
theorem short_landmark_frame_misbehaves :
    frame initState none (some lm12) = Except.error "NameError" ∧
      frame s1 t1 (some lm12b) = Except.ok (s3, t1) ∧
      s3.player.pos ≠ s1.player.pos :=
  ⟨rfl, rfl, by decide⟩

/-- Claim C3 counterexample: dragging the grabbed circle to `(1060, 140)`
makes the collision check and the unguarded finish check both fire in the
same frame, so `game_over` and `game_won` are both set, refuting the claim
that the Lost and Won conditions are never both set. -/
theorem lost_and_won_both_set :
    frame initState none (some lm13) = Except.ok (s1, t1) ∧
      frame s1 t1 (some (lmDrag (1060, 140))) =
        Except.ok (s2, some ((1060, 140), (1060, 140))) ∧
      s2.game_over = true ∧ s2.game_won = true :=
  ⟨rfl, rfl, rfl, rfl⟩

/-- Claim C3 as amended: the finish check is evaluated unconditionally every
frame, not only when the frame did not transition to Lost; whenever the
player position both collides with a wall and lies within the finish
distance, one frame sets both `game_over` and `game_won`. -/
theorem goal_check_runs_even_when_lost (s : GameState) (v : Tips)
    (hc : collAny s = true) (hg : goalHit s = true) :
    frame s v none = Except.ok (frameChecks s, v) ∧
      (frameChecks s).game_over = true ∧ (frameChecks s).game_won = true := by
  refine ⟨frame_eq_ok rfl, ?_, ?_⟩
  · show (s.game_over || collAny s) = true
    rw [hc]
    exact Bool.or_true _
  · show (s.game_won || goalHit s) = true
    rw [hg]
    exact Bool.or_true _

/-- Witness for the amended C3 theorem at the concrete overlap position
`(1060, 140)`. -/
theorem goal_check_runs_even_when_lost_witness :
    frame sBoth none none = Except.ok (frameChecks sBoth, none) ∧
      (frameChecks sBoth).game_over = true ∧ (frameChecks sBoth).game_won = true :=
  goal_check_runs_even_when_lost sBoth none rfl rfl

/-- Claim C4: from any reachable state whose status is Lost or Won, a frame
with an arbitrary gesture input returns the state (player position, grabbed
flag, both flags, everything) completely unchanged. -/
theorem terminal_freeze (s : GameState) (v : Tips) (hr : Reachable s v)
    (ht : s.game_over = true ∨ s.game_won = true) (hand : Option (List (Int × Int))) :
    frame s v hand = Except.ok (s, v) := by
  obtain ⟨-, -, -, -, -, hco, hgo⟩ := reach_inv hr
  have hterm : (s.game_over || s.game_won) = true := by
    rcases ht with h | h
    · rw [h]
      exact Bool.true_or _
    · rw [h]
      exact Bool.or_true _
  have hfg : frameGesture s v hand = Except.ok (s, v) := by
    cases hand with
    | none => rfl
    | some lmList =>
      simp only [frameGesture]
      rw [if_pos hterm]
  have e1 : (s.game_over || collAny s) = s.game_over := by
    cases hc : collAny s with
    | false => exact Bool.or_false _
    | true =>
      rw [hco hc]
      rfl
  have e2 : (s.game_won || goalHit s) = s.game_won := by
    cases hc : goalHit s with
    | false => exact Bool.or_false _
    | true =>
      rw [hgo hc]
      rfl
  have h2 : frameChecks s = s := by
    show { s with game_over := s.game_over || collAny s,
                  game_won := s.game_won || goalHit s } = s
    rw [e1, e2]
  rw [frame_eq_ok hfg, h2]

/-- Witness for C4: the reachable lost state `sTerm` (circle dragged into the
wall at `(200, 200)`) is left unchanged by a further frame with a pinching
hand present. -/
theorem terminal_freeze_witness :
    frame sTerm tTerm (some lm13) = Except.ok (sTerm, tTerm) :=
  terminal_freeze sTerm tTerm
    (Reachable.step (some (lmDrag (200, 200)))
      (Reachable.step (some lm13) Reachable.start rfl) rfl)
    (Or.inl rfl) (some lm13)

/-- Claim C5: `check_collision` returns true iff the Euclidean distance from
the clamped closest point to the circle center is strictly less than the
radius; in particular, for a circle center strictly beyond the bottom-right
corner of a well-formed rectangle, it returns true iff the distance to that
corner is less than the radius and false iff that distance is at least the
radius. -/
theorem check_collision_matches_distance (rect : DragRect) (c : Int × Int) (radius : Int) :
    (check_collision rect c radius = true ↔
      Real.sqrt (((closest_x rect c - c.1 : Int) : ℝ) ^ 2 +
        ((closest_y rect c - c.2 : Int) : ℝ) ^ 2) < (radius : ℝ)) ∧
    (0 ≤ rect.size.1 → 0 ≤ rect.size.2 →
      rect.posCenter.1 + rect.size.1.fdiv 2 < c.1 →
      rect.posCenter.2 + rect.size.2.fdiv 2 < c.2 →
      ((check_collision rect c radius = true ↔
        Real.sqrt (((rect.posCenter.1 + rect.size.1.fdiv 2 - c.1 : Int) : ℝ) ^ 2 +
          ((rect.posCenter.2 + rect.size.2.fdiv 2 - c.2 : Int) : ℝ) ^ 2) < (radius : ℝ)) ∧
       (check_collision rect c radius = false ↔
        (radius : ℝ) ≤ Real.sqrt (((rect.posCenter.1 + rect.size.1.fdiv 2 - c.1 : Int) : ℝ) ^ 2 +
          ((rect.posCenter.2 + rect.size.2.fdiv 2 - c.2 : Int) : ℝ) ^ 2)))) := by
  have base : check_collision rect c radius = true ↔
      Real.sqrt (((closest_x rect c - c.1 : Int) : ℝ) ^ 2 +
        ((closest_y rect c - c.2 : Int) : ℝ) ^ 2) < (radius : ℝ) :=
    distLt_iff_sqrt (closest_x rect c, closest_y rect c) c radius
  refine ⟨base, ?_⟩
  intro hw hh hx hy
  have hwd : 0 ≤ rect.size.1.fdiv 2 := Int.fdiv_nonneg hw (by norm_num)
  have hhd : 0 ≤ rect.size.2.fdiv 2 := Int.fdiv_nonneg hh (by norm_num)
  have ex : closest_x rect c = rect.posCenter.1 + rect.size.1.fdiv 2 := by
    unfold closest_x
    rw [min_eq_right (le_of_lt hx)]
    exact max_eq_right (by omega)
  have ey : closest_y rect c = rect.posCenter.2 + rect.size.2.fdiv 2 := by
    unfold closest_y
    rw [min_eq_right (le_of_lt hy)]
    exact max_eq_right (by omega)
  constructor
  · rw [← ex, ← ey]
    exact base
  · rw [← ex, ← ey, ← not_lt, ← base]
    exact Bool.eq_false_iff

/-- Witness for C5 at a concrete wall and circle center beyond its corner:
center `(300, 300)`, the wall centered at `(200, 200)` of size 100 by 100,
radius 30. -/
theorem check_collision_matches_distance_witness :
    (check_collision rect0 (300, 300) 30 = true ↔
      Real.sqrt (((rect0.posCenter.1 + rect0.size.1.fdiv 2 - 300 : Int) : ℝ) ^ 2 +
        ((rect0.posCenter.2 + rect0.size.2.fdiv 2 - 300 : Int) : ℝ) ^ 2) < ((30 : Int) : ℝ)) ∧
    (check_collision rect0 (300, 300) 30 = false ↔
      ((30 : Int) : ℝ) ≤
        Real.sqrt (((rect0.posCenter.1 + rect0.size.1.fdiv 2 - 300 : Int) : ℝ) ^ 2 +
          ((rect0.posCenter.2 + rect0.size.2.fdiv 2 - 300 : Int) : ℝ) ^ 2)) :=
  (check_collision_matches_distance rect0 (300, 300) 30).2
    (by decide) (by decide) (by decide) (by decide)

/-- Claim C6: a non-pinching event always releases; a pinching event on a
grabbed player keeps it grabbed whatever the cursor is (in particular at
distance at least the radius); and an ungrabbed player becomes grabbed
exactly when the event is pinching and the cursor is strictly within the
player radius of its position. -/
theorem grab_release_rules (p : Player) (pinching : Bool) (cursor : Int × Int) :
    (applyGesture p false cursor).grabbed = false ∧
      (applyGesture { p with grabbed := true } true cursor).grabbed = true ∧
      (applyGesture { p with grabbed := false } pinching cursor).grabbed =
        (pinching && distLt cursor p.pos p.radius) := by
  refine ⟨rfl, ?_, ?_⟩
  · cases hd : distLt cursor p.pos p.radius with
    | false => simp [applyGesture, hd]
    | true => simp [applyGesture, hd]
  · cases pinching with
    | false => simp [applyGesture]
    | true =>
      cases hd : distLt cursor p.pos p.radius with
      | false => simp [applyGesture, hd]
      | true => simp [applyGesture, hd]

/-- Claim C7: applying the same pinching event with an unchanged cursor a
second time changes nothing: the first application already produced the fixed
point (grab idempotence, no drift). -/
theorem applyGesture_pinch_idem (p : Player) (cursor : Int × Int) :
    applyGesture (applyGesture p true cursor) true cursor = applyGesture p true cursor := by
  obtain ⟨pos, rad, g⟩ := p
  cases hd : distLt cursor pos rad with
  | true =>
    have h1 : applyGesture ⟨pos, rad, g⟩ true cursor = ⟨cursor, rad, true⟩ := by
      simp [applyGesture, hd]
    rw [h1]
    simp [applyGesture]
  | false =>
    cases g with
    | true =>
      have h1 : applyGesture ⟨pos, rad, true⟩ true cursor = ⟨cursor, rad, true⟩ := by
        simp [applyGesture, hd]
      rw [h1]
      simp [applyGesture]
    | false =>
      have h1 : applyGesture ⟨pos, rad, false⟩ true cursor = ⟨pos, rad, false⟩ := by
        simp [applyGesture, hd]
      rw [h1]
      exact h1

/-- Claim C8: from a Playing state the checks phase moves the status to Lost
exactly when some wall in the list collides with the player circle, and the
resulting status is invariant under any permutation of the wall list. -/
theorem lost_iff_collision_perm_invariant (s : GameState) (l2 : List DragRect)
    (hperm : s.rects.Perm l2) (h1 : s.game_over = false) (h2 : s.game_won = false) :
    (status (frameChecks s) = SessionStatus.Lost ↔ collAny s = true) ∧
      status (frameChecks { s with rects := l2 }) = status (frameChecks s) := by
  have e1 : (frameChecks s).game_over = collAny s := by
    show (s.game_over || collAny s) = collAny s
    rw [h1]
    exact Bool.false_or _
  have e2 : (frameChecks s).game_won = goalHit s := by
    show (s.game_won || goalHit s) = goalHit s
    rw [h2]
    exact Bool.false_or _
  have ecoll : collAny { s with rects := l2 } = collAny s := by
    show (l2.any fun rect => check_collision rect s.player.pos s.player.radius) =
      (s.rects.any fun rect => check_collision rect s.player.pos s.player.radius)
    exact (perm_any _ hperm).symm
  constructor
  · unfold status
    rw [e1, e2]
    cases hc : collAny s with
    | true => simp
    | false =>
      cases hgo : goalHit s with
      | true => simp
      | false => simp
  · unfold status
    have f1 : (frameChecks { s with rects := l2 }).game_over = (frameChecks s).game_over := by
      show (s.game_over || collAny { s with rects := l2 }) = (s.game_over || collAny s)
      rw [ecoll]
    have f2 : (frameChecks { s with rects := l2 }).game_won = (frameChecks s).game_won := by
      show (s.game_won || goalHit { s with rects := l2 }) = (s.game_won || goalHit s)
      rfl
    rw [f1, f2]

/-- Witness for C8: a state whose player sits on the wall centered at
`(200, 200)`, with the wall list reversed as the permutation. -/
theorem lost_iff_collision_perm_invariant_witness :
    (status (frameChecks sB) = SessionStatus.Lost ↔ collAny sB = true) ∧
      status (frameChecks { sB with rects := rectList.reverse }) = status (frameChecks sB) :=
  lost_iff_collision_perm_invariant sB rectList.reverse
    (List.reverse_perm rectList).symm rfl rfl

/-- Claim C9: `reset_game` leaves the wall list and the finish circle exactly
as they were, and so does every successfully completed frame. -/
theorem frame_reset_preserve_maze (s t : GameState) (v v2 : Tips)
    (hand : Option (List (Int × Int))) (h : frame s v hand = Except.ok (t, v2)) :
    (reset_game s).rects = s.rects ∧ (reset_game s).finish_pos = s.finish_pos ∧
      (reset_game s).finish_radius = s.finish_radius ∧
      t.rects = s.rects ∧ t.finish_pos = s.finish_pos ∧ t.finish_radius = s.finish_radius := by
  obtain ⟨sm, hfg, rfl⟩ := frame_ok_decomp h
  obtain ⟨e1, -, e3, e4, -, -, -⟩ := gesture_pres hfg
  exact ⟨rfl, rfl, rfl, e1, e3, e4⟩

/-- Witness for C9 at the first frame from the initial state. -/
theorem frame_reset_preserve_maze_witness :
    (reset_game initState).rects = initState.rects ∧
      (reset_game initState).finish_pos = initState.finish_pos ∧
      (reset_game initState).finish_radius = initState.finish_radius ∧
      s1.rects = initState.rects ∧ s1.finish_pos = initState.finish_pos ∧
      s1.finish_radius = initState.finish_radius :=
  frame_reset_preserve_maze initState s1 none t1 (some lm13) rfl

/-- Claim C10: a successfully completed frame never clears either flag (the
flags only grow), and only an explicit `reset_game` clears them both. -/
theorem flags_monotone_until_reset (s t : GameState) (v v2 : Tips)
    (hand : Option (List (Int × Int))) (h : frame s v hand = Except.ok (t, v2)) :
    s.game_over ≤ t.game_over ∧ s.game_won ≤ t.game_won ∧
      (reset_game s).game_over = false ∧ (reset_game s).game_won = false := by
  obtain ⟨sm, hfg, rfl⟩ := frame_ok_decomp h
  obtain ⟨-, -, -, -, -, e6, e7⟩ := gesture_pres hfg
  refine ⟨?_, ?_, rfl, rfl⟩
  · show s.game_over ≤ (sm.game_over || collAny sm)
    rw [e6]
    cases hb : s.game_over with
    | false => exact Bool.false_le _
    | true => rw [Bool.true_or]
  · show s.game_won ≤ (sm.game_won || goalHit sm)
    rw [e7]
    cases hb : s.game_won with
    | false => exact Bool.false_le _
    | true => rw [Bool.true_or]

/-- Witness for C10 at the lost state `sTerm` and a further frame. -/
theorem flags_monotone_until_reset_witness :
    sTerm.game_over ≤ sTerm.game_over ∧ sTerm.game_won ≤ sTerm.game_won ∧
      (reset_game sTerm).game_over = false ∧ (reset_game sTerm).game_won = false :=
  flags_monotone_until_reset sTerm sTerm tTerm tTerm (some lm13) rfl

end MazeGame
